import Mathlib

/-!
Verification development for the EchoVision spatial guidance engine
(`backend/main.py`).  The Python functions `_extract_targets`,
`_estimate_distance`, `_calculate_precise_position`, `_direction_for_targets`,
`_free_path_direction`, `_nearest_obstacle_distance`, `_analyze_obstacles`,
`_path_smoothing_instruction` and `_compute_guidance` are embedded as
executable Lean definitions over exact rationals.  A Python exception
(division by zero, key error, unpack error) is modelled by `Option.none`;
Python's process-wide string hash is an explicit function parameter.
-/

namespace EchoVision

/-- Python `round` with `ndigits = None`: nearest integer, ties to even. -/
def roundTiesEven (x : ℚ) : ℤ :=
  if x - (⌊x⌋ : ℚ) < 1/2 then ⌊x⌋
  else if 1/2 < x - (⌊x⌋ : ℚ) then ⌊x⌋ + 1
  else if ⌊x⌋ % 2 = 0 then ⌊x⌋ else ⌊x⌋ + 1

/-- Python `round(x, 1)`: round to one decimal digit, ties to even. -/
def round1 (x : ℚ) : ℚ := (roundTiesEven (x * 10) : ℚ) / 10

/-- Python `round(x)` as a rational. -/
def round0 (x : ℚ) : ℚ := (roundTiesEven x : ℚ)

/-- Python `f"{x:.1f}"`: fixed-point rendering with one decimal digit. -/
def fmt1 (x : ℚ) : String :=
  let n := roundTiesEven (x * 10)
  let sign := if n < 0 then "-" else ""
  let m := n.natAbs
  sign ++ toString (m / 10) ++ "." ++ toString (m % 10)

/-- Python `str.lower()` (ASCII): map `Char.toLower` over the characters. -/
def lowerStr (s : String) : String := ⟨s.data.map Char.toLower⟩

/-- Accumulating loop for `pySplitWS`. -/
def fieldsAux (p : Char → Bool) : List Char → List Char → List String
  | acc, [] => if acc.isEmpty then [] else [⟨acc.reverse⟩]
  | acc, c :: cs =>
    if p c then (if acc.isEmpty then fieldsAux p [] cs else ⟨acc.reverse⟩ :: fieldsAux p [] cs)
    else fieldsAux p (c :: acc) cs

/-- Python `str.split()` with no argument: split on whitespace runs,
discarding empty fields. -/
def pySplitWS (s : String) : List String := fieldsAux Char.isWhitespace [] s.data

/-- Python `str.strip()`: drop whitespace from both ends. -/
def pyStrip (s : String) : String :=
  ⟨((s.data.dropWhile Char.isWhitespace).reverse.dropWhile Char.isWhitespace).reverse⟩

/-- Python `t.strip("?.,! ")` used by the target extractor. -/
def stripPunct (s : String) : String :=
  let p : Char → Bool := fun c => c = '?' || c = '.' || c = ',' || c = '!' || c = ' '
  ⟨((s.data.dropWhile p).reverse.dropWhile p).reverse⟩

/-- Python `s.endswith(('.', '!', '?'))`. -/
def endsPunct (s : String) : Bool :=
  match s.data.getLast? with
  | some c => c = '.' || c = '!' || c = '?'
  | none => false

/-- Python `needle in hay` on strings: substring containment. -/
def isSubstr (needle hay : String) : Bool :=
  decide (needle.data <:+: hay.data)

/-- Evaluate `f` on every element, failing (Python exception) if any call fails. -/
def optionMapList (f : α → Option β) : List α → Option (List β)
  | [] => some []
  | x :: xs =>
    match f x, optionMapList f xs with
    | some y, some ys => some (y :: ys)
    | _, _ => none

/-- Python `min(xs, key=f)` scan: the first element with strictly smallest key wins. -/
def minByFirst (f : α → ℚ) : α → List α → α
  | best, [] => best
  | best, x :: xs => if f x < f best then minByFirst f x xs else minByFirst f best xs

/-- Python `max(xs, key=f)` scan: the first element with strictly largest key wins. -/
def maxByFirst (f : α → ℚ) : α → List α → α
  | best, [] => best
  | best, x :: xs => if f best < f x then maxByFirst f x xs else maxByFirst f best xs

/-- Python `list(dict.fromkeys(xs))`: deduplicate keeping first occurrences. -/
def dedupKeepFirst (seen : List String) : List String → List String
  | [] => []
  | x :: xs =>
    if x ∈ seen then dedupKeepFirst seen xs
    else x :: dedupKeepFirst (x :: seen) xs

/-- One detected object (`ObjectDetection` pydantic model): label, confidence
in `[0,1]`, and an optional raw bounding-box list (the engine only treats a
4-element list `[x1,y1,x2,y2]` as a usable box). -/
structure ObjectDetection where
  name : String
  confidence : ℚ
  bbox : Option (List ℚ)
deriving DecidableEq, Repr

/-- Embedding of `_estimate_distance`: categorical closeness label from box height and
bottom edge relative to the frame height. -/
def _estimate_distance (obj : ObjectDetection) (img_height : ℚ) : String :=
  match obj.bbox with
  | some [_, y1, _, y2] =>
    let rel_height := (y2 - y1) / img_height
    let rel_bottom := y2 / img_height
    if 0.4 < rel_height ∧ 0.7 < rel_bottom then "very close"
    else if 0.25 < rel_height ∧ 0.6 < rel_bottom then "close"
    else if 0.15 < rel_height ∧ 0.5 < rel_bottom then "medium"
    else if 0.08 < rel_height then "far"
    else "very far"
  | _ => "unknown"

/-- The `object_real_sizes` lookup table of `_calculate_precise_position`,
keyed by lower-cased label, defaulting to 1 meter. -/
def object_real_sizes (name : String) : ℚ :=
  match name with
  | "person" => 1.7
  | "car" => 4.5
  | "chair" => 0.9
  | "table" => 0.75
  | "door" => 2.0
  | "laptop" => 0.35
  | "cell phone" => 0.15
  | "bottle" => 0.25
  | "cup" => 0.1
  | "book" => 0.25
  | "clock" => 0.3
  | "tv" => 1.0
  | "refrigerator" => 1.8
  | "microwave" => 0.5
  | "oven" => 0.6
  | "sink" => 0.6
  | "toilet" => 0.7
  | "bed" => 2.0
  | "dining table" => 1.5
  | "sofa" => 2.0
  | "potted plant" => 0.5
  | "bicycle" => 1.7
  | "motorcycle" => 2.0
  | "airplane" => 50.0
  | "bus" => 12.0
  | "train" => 25.0
  | "truck" => 8.0
  | "boat" => 6.0
  | "stop sign" => 0.8
  | "parking meter" => 1.2
  | "bench" => 1.5
  | "bird" => 0.15
  | "cat" => 0.4
  | "dog" => 0.6
  | "horse" => 2.5
  | "sheep" => 1.5
  | "cow" => 2.5
  | "elephant" => 6.0
  | "bear" => 2.0
  | "zebra" => 2.5
  | "giraffe" => 5.0
  | _ => 1.0

/-- The full dictionary `_calculate_precise_position` returns for a valid box. -/
structure PrecisePosition where
  angle : ℚ
  distance_meters : ℚ
  position : String
  coordinates : ℚ × ℚ
  size_pixels : ℚ × ℚ
  confidence : ℚ
deriving DecidableEq, Repr

/-- Result of `_calculate_precise_position`: either the reduced dictionary
`{"angle": 0, "distance_meters": 0, "position": "unknown", "coordinates": [0,0]}`
returned for a missing/malformed box (it lacks the `confidence` and
`size_pixels` keys), or the full dictionary. -/
inductive PrecisePos where
  | degenerate
  | ok (p : PrecisePosition)
deriving DecidableEq, Repr

/-- The verbal position bucket of `_calculate_precise_position`. -/
def positionBucket (angle_offset : ℚ) : String :=
  if |angle_offset| < 5 then "directly ahead"
  else if |angle_offset| < 15 then "slightly " ++ (if angle_offset < 0 then "left" else "right")
  else if |angle_offset| < 30 then (if angle_offset < 0 then "left" else "right")
  else if |angle_offset| < 45 then "far " ++ (if angle_offset < 0 then "left" else "right")
  else "extreme " ++ (if angle_offset < 0 then "left" else "right")

/-- Embedding of `_calculate_precise_position`: angle from frame center (60° field of view),
pinhole distance estimate clamped to `[0.5, 100]` m, verbal position bucket.
`none` models the `ZeroDivisionError` the Python code raises when the box
pixel height `y2 - y1` is zero. -/
def _calculate_precise_position (obj : ObjectDetection) (img_width img_height : ℚ) :
    Option PrecisePos :=
  match obj.bbox with
  | some [x1, y1, x2, y2] =>
    let center_x := (x1 + x2) / 2
    let center_y := (y1 + y2) / 2
    let width := x2 - x1
    let height := y2 - y1
    let frame_center_x := img_width / 2
    let pixels_per_degree := img_width / 60
    let angle_offset := (center_x - frame_center_x) / pixels_per_degree
    if height = 0 then none
    else
      let real_size := object_real_sizes (lowerStr obj.name)
      let estimated_distance := max 0.5 (min (real_size * img_height / height) 100.0)
      some (.ok
        { angle := round1 angle_offset
          distance_meters := round1 estimated_distance
          position := positionBucket angle_offset
          coordinates := (round0 center_x, round0 center_y)
          size_pixels := (round0 width, round0 height)
          confidence := obj.confidence })
  | _ => some .degenerate

/-- The structured `navigation` payload built by `_direction_for_targets`. -/
structure NavData where
  angle_degrees : ℚ
  distance_meters : ℚ
  turn_instruction : String
  approach_instruction : String
  full_instruction : String
  position_description : String
  coordinates : ℚ × ℚ
deriving DecidableEq, Repr

/-- The direction-info dictionary flowing through `_compute_guidance`.
`navigation = none` models the empty dict `{}` (falsy in Python); the
`target_count` key defaults to 0 wherever the source reads it with
`.get("target_count", 0)`. -/
structure DirectionInfo where
  direction : String
  distance : String
  confidence : ℚ
  target_count : ℕ
  navigation : Option NavData
deriving DecidableEq, Repr

/-- Turn-class label of `_direction_for_targets` (thresholds 2°, 10°, 30°, 60°
on the rounded best-target angle). -/
def turnDirection (angle : ℚ) : String :=
  if |angle| < 2 then "straight"
  else if |angle| < 10 then (if angle < 0 then "slight_left" else "slight_right")
  else if |angle| < 30 then (if angle < 0 then "left" else "right")
  else if |angle| < 60 then (if angle < 0 then "sharp_left" else "sharp_right")
  else (if angle < 0 then "turn_around_left" else "turn_around_right")

/-- Worded turn instruction of `_direction_for_targets`. -/
def turnInstructionFor (angle : ℚ) : String :=
  let side := if angle < 0 then "left" else "right"
  if |angle| < 2 then "Continue straight ahead"
  else if |angle| < 10 then
    "Slight adjustment: turn " ++ fmt1 |angle| ++ " degrees " ++ side
  else if |angle| < 30 then "Turn " ++ fmt1 |angle| ++ " degrees " ++ side
  else if |angle| < 60 then "Sharp turn: " ++ fmt1 |angle| ++ " degrees " ++ side
  else "Turn around: object is " ++ fmt1 |angle| ++ " degrees " ++ side ++ " behind you"

/-- Distance phrase of `_direction_for_targets`, bucketed at 0.5/1.5/3/10 m. -/
def distanceDesc (distance : ℚ) : String :=
  if distance < 0.5 then "very close (" ++ fmt1 distance ++ " meters)"
  else if distance < 1.5 then "close (" ++ fmt1 distance ++ " meters)"
  else if distance < 3.0 then "medium distance (" ++ fmt1 distance ++ " meters)"
  else if distance < 10.0 then "far (" ++ fmt1 distance ++ " meters)"
  else "very far (" ++ fmt1 distance ++ " meters)"

/-- Approach guidance of `_direction_for_targets`, same buckets. -/
def approachFor (distance : ℚ) : String :=
  if distance < 0.5 then "Move very slowly and carefully"
  else if distance < 1.5 then "Take a few careful steps forward"
  else if distance < 3.0 then "Walk forward steadily"
  else if distance < 10.0 then "Walk forward at normal pace"
  else "Walk forward, it\x27s quite far"

/-- Composed `full_instruction` of `_direction_for_targets`: the turn clause
is omitted when the rounded angle is within 2° of straight ahead. -/
def fullInstructionFor (angle distance : ℚ) : String :=
  if |angle| < 2 then
    approachFor distance ++ ". Target is directly ahead, " ++ distanceDesc distance ++ "."
  else
    turnInstructionFor angle ++ ", then " ++ lowerStr (approachFor distance) ++
      ". Target is " ++ distanceDesc distance ++ "."

/-- Embedding of `_direction_for_targets`: per-candidate precise positions, best target by
smallest rounded metric distance (first wins ties), mean confidence, turn
classification.  `none` models the Python exceptions: `ZeroDivisionError`
from a zero-height box, and the `KeyError` raised at
`sum(p["confidence"] for p in positions)` when any candidate produced the
reduced missing-box dictionary (which has no `confidence` key). -/
def _direction_for_targets (target_objs : List ObjectDetection) (width height : ℚ) :
    Option DirectionInfo :=
  match target_objs with
  | [] => some ⟨"unknown", "unknown", 0, 0, none⟩
  | _ :: _ =>
    match optionMapList (fun o => _calculate_precise_position o width height) target_objs with
    | none => none
    | some posv =>
      match optionMapList
          (fun p => match p with | .ok q => some q | .degenerate => none) posv with
      | none => none
      | some positions =>
        match positions with
        | [] => some ⟨"unknown", "unknown", 0, 0, none⟩
        | p :: ps =>
          let best := minByFirst PrecisePosition.distance_meters p ps
          let avg_confidence :=
            ((positions.map PrecisePosition.confidence).sum) / (positions.length : ℚ)
          let angle := best.angle
          let distance := best.distance_meters
          some
            { direction := turnDirection angle
              distance := distanceDesc distance
              confidence := avg_confidence
              target_count := target_objs.length
              navigation := some
                { angle_degrees := angle
                  distance_meters := distance
                  turn_instruction := turnInstructionFor angle
                  approach_instruction := approachFor distance
                  full_instruction := fullInstructionFor angle distance
                  position_description := best.position
                  coordinates := best.coordinates } }

/-- The dictionary returned by `_free_path_direction` (its occasional
`target_count: 0` key is observationally the default 0 downstream). -/
structure FreePathInfo where
  direction : String
  distance : String
  confidence : ℚ
deriving DecidableEq, Repr

/-- Occupied horizontal intervals of `_free_path_direction`: each valid box is
clipped to the frame, discarded if empty once clipped, and normalized by the
frame width. -/
def intervalsOf (objects : List ObjectDetection) (img_width : ℚ) : List (ℚ × ℚ) :=
  objects.filterMap fun o =>
    match o.bbox with
    | some [x1, _, x2, _] =>
      let a := max 0 (min img_width x1)
      let b := max 0 (min img_width x2)
      if b ≤ a then none else some (a / img_width, b / img_width)
    | _ => none

/-- The relation `intervals.sort(key=lambda x: x[0])` sorts by (stable,
ascending on start). -/
def startLE (p q : ℚ × ℚ) : Prop := p.1 ≤ q.1

instance : DecidableRel startLE := fun p q => inferInstanceAs (Decidable (p.1 ≤ q.1))

/-- Merge loop of `_free_path_direction`: fuse intervals whose gap is ≤ 0.01. -/
def mergeLoop : ℚ × ℚ → List (ℚ × ℚ) → List (ℚ × ℚ)
  | cur, [] => [cur]
  | (cur_s, cur_e), (s, e) :: rest =>
    if s ≤ cur_e + 0.01 then mergeLoop (cur_s, max cur_e e) rest
    else (cur_s, cur_e) :: mergeLoop (s, e) rest

/-- Complementary gaps of width > 0.05 between merged intervals, including the
final gap up to 1.0. -/
def gapsOf (prev_end : ℚ) : List (ℚ × ℚ) → List (ℚ × ℚ)
  | [] => if 0.05 < 1 - prev_end then [(prev_end, 1)] else []
  | (s, e) :: rest =>
    if 0.05 < s - prev_end then (prev_end, s) :: gapsOf e rest else gapsOf e rest

/-- Total coverage left of the 0.5 midline among merged intervals. -/
def leftCoverage (merged : List (ℚ × ℚ)) : ℚ :=
  ((merged.filter fun i => i.1 < 0.5).map fun i => max 0 (min i.2 0.5 - i.1)).sum

/-- Total coverage right of the 0.5 midline among merged intervals. -/
def rightCoverage (merged : List (ℚ × ℚ)) : ℚ :=
  ((merged.filter fun i => 0.5 < i.2).map fun i => max 0 (i.2 - max i.1 0.5)).sum

/-- Gap-center-offset → direction label chain of `_free_path_direction`. -/
def freePathLabel (rel : ℚ) : String :=
  if |rel| < 0.06 then "center"
  else if rel < -0.3 then "hard left"
  else if rel < -0.15 then "left"
  else if rel < -0.06 then "slightly left"
  else if 0.3 < rel then "hard right"
  else if 0.15 < rel then "right"
  else if 0.06 < rel then "slightly right"
  else "center"

/-- Rank of a distance label in the `order` list of
`_nearest_obstacle_distance`; 7 when absent. -/
def nearestOrderRank (d : String) : ℕ :=
  if d = "very close" then 0
  else if d = "close" then 1
  else if d = "medium" then 2
  else if d = "far" then 3
  else if d = "very far" then 4
  else if d = "unknown" then 5
  else if d = "clear" then 6
  else 7

/-- Embedding of `_nearest_obstacle_distance`: closest-ranked distance label over all
objects, computed with the default frame height 480. -/
def _nearest_obstacle_distance (objects : List ObjectDetection) : String :=
  (objects.foldl
    (fun (acc : ℕ × String) o =>
      let d := _estimate_distance o 480
      if nearestOrderRank d ≤ 6 ∧ nearestOrderRank d < acc.1 then (nearestOrderRank d, d)
      else acc)
    (7, "clear")).2

/-- Sort-then-merge pipeline of `_free_path_direction` (the interval list it
is applied to is never empty in the source). -/
def mergedOf (l : List (ℚ × ℚ)) : List (ℚ × ℚ) :=
  match List.insertionSort startLE l with
  | [] => []
  | j :: js => mergeLoop j js

/-- Embedding of `_free_path_direction`: project boxes to occupied horizontal intervals,
merge, pick the widest meaningful gap (or the less-covered side when the frame
is fully tiled), and map its center offset to a direction label. -/
def _free_path_direction (objects : List ObjectDetection) (img_width : ℚ) : FreePathInfo :=
  match intervalsOf objects img_width with
  | [] => ⟨"center", "clear", 0.5⟩
  | i :: is =>
    let merged := mergedOf (i :: is)
    let gaps := gapsOf 0 merged
    match gaps with
    | [] =>
      let left_coverage := leftCoverage merged
      let right_coverage := rightCoverage merged
      ⟨if left_coverage < right_coverage then "left" else "right",
        _nearest_obstacle_distance objects, 0.3⟩
    | g :: gs =>
      let widest := maxByFirst (fun p => p.2 - p.1) g gs
      let rel := (widest.1 + widest.2) / 2 - 0.5
      ⟨freePathLabel rel, _nearest_obstacle_distance objects, 0.45⟩

/-- One obstacle record produced by `_analyze_obstacles`. -/
structure Obstacle where
  name : String
  distance : String
  position : String
  threat : String
  confidence : ℚ
deriving DecidableEq, Repr

/-- The `distance_order.get(d, 5)` lookup of `_analyze_obstacles`. -/
def distanceOrderRank (d : String) : ℕ :=
  if d = "very close" then 0
  else if d = "close" then 1
  else if d = "medium" then 2
  else if d = "far" then 3
  else if d = "very far" then 4
  else 5

/-- The `threat_order.get(t, 3)` lookup of `_analyze_obstacles`. -/
def threatOrderRank (t : String) : ℕ :=
  if t = "high" then 0
  else if t = "medium" then 1
  else if t = "low" then 2
  else 3

/-- Encoded sort key of `_analyze_obstacles`: lexicographic
(distance rank, threat rank), packed since the threat rank is below 4. -/
def obstacleSortKey (o : Obstacle) : ℕ :=
  distanceOrderRank o.distance * 4 + threatOrderRank o.threat

/-- The sort relation used on obstacle records. -/
def obstacleLE (a b : Obstacle) : Prop := obstacleSortKey a ≤ obstacleSortKey b

instance : DecidableRel obstacleLE :=
  fun a b => inferInstanceAs (Decidable (obstacleSortKey a ≤ obstacleSortKey b))

instance : IsTotal Obstacle obstacleLE :=
  ⟨fun a b => le_total (obstacleSortKey a) (obstacleSortKey b)⟩

instance : IsTrans Obstacle obstacleLE :=
  ⟨fun _ _ _ hab hbc => le_trans hab hbc⟩

/-- Per-detection step of `_analyze_obstacles`.  Outer `none` models the
unpack error `x1, y1, x2, y2 = o.bbox` raises when the box is a non-empty
list of a length other than 4; inner `none` means the detection is skipped
(target, missing/empty box) or filtered out as insignificant. -/
def obstacleEntry (target_objs : List ObjectDetection) (img_width img_height : ℚ)
    (o : ObjectDetection) : Option (Option Obstacle) :=
  if o ∈ target_objs then some none
  else
    match o.bbox with
    | none => some none
    | some [] => some none
    | some [x1, y1, x2, y2] =>
      let cx := (x1 + x2) / 2
      let cy := (y1 + y2) / 2
      let area := (x2 - x1) * (y2 - y1)
      let rel_x := cx / img_width
      let rel_y := cy / img_height
      let distance := _estimate_distance o img_height
      let in_path := 0.25 < rel_x ∧ rel_x < 0.75 ∧ 0.3 < rel_y
      let rel_area := area / (img_width * img_height)
      let threat :=
        if 0.15 < rel_area then "high"
        else if 0.08 < rel_area then "medium"
        else "low"
      if in_path ∧ (threat = "high" ∨ threat = "medium" ∨
          distance = "very close" ∨ distance = "close") then
        some (some
          { name := o.name
            distance := distance
            position := if rel_x < 0.4 then "left" else if 0.6 < rel_x then "right" else "center"
            threat := threat
            confidence := o.confidence })
      else some none
    | some _ => none

/-- Loop body of `_analyze_obstacles`: retained obstacle records in detection order. -/
def obstaclesRaw (target_objs : List ObjectDetection) (img_width img_height : ℚ) :
    List ObjectDetection → Option (List Obstacle)
  | [] => some []
  | o :: os =>
    match obstacleEntry target_objs img_width img_height o,
        obstaclesRaw target_objs img_width img_height os with
    | some none, r => r
    | some (some ob), some rest => some (ob :: rest)
    | _, _ => none

/-- Embedding of `_analyze_obstacles`: non-target, in-path, significant detections as
obstacle records, stably sorted by (distance rank, threat rank) and truncated
to the 3 most important. -/
def _analyze_obstacles (objects target_objs : List ObjectDetection)
    (img_width img_height : ℚ) : Option (List Obstacle) :=
  match obstaclesRaw target_objs img_width img_height objects with
  | none => none
  | some obstacles => some ((List.insertionSort obstacleLE obstacles).take 3)

/-- The stop-word set of `_extract_targets`. -/
def stopWords : List String :=
  ["the", "a", "an", "to", "is", "are", "there", "on", "at", "my", "in", "for",
   "of", "do", "i", "can", "you", "me", "near"]

/-- Embedding of `_extract_targets`: lower-case, whitespace-split, strip `"?.,! "` per
token, drop stop words and tokens of length ≤ 2, deduplicate keeping first
occurrences, cap at 3 keywords. -/
def _extract_targets (question : String) : List String :=
  let q := lowerStr question
  let tokens := (pySplitWS q).map stripPunct
  let nouns := tokens.filter fun t => t ≠ "" ∧ t ∉ stopWords ∧ 2 < t.length
  (dedupKeepFirst [] nouns).take 3

/-- The matched detections `_compute_guidance` computes for one keyword `t`:
`[o for o in objects if t in o.name.lower()]`. -/
def matchesFor (t : String) (objects : List ObjectDetection) : List ObjectDetection :=
  objects.filter fun o => isSubstr t (lowerStr o.name)

/-- The target-search loop of `_compute_guidance`: first extracted keyword
with a non-empty match set wins. -/
def findTarget (targets : List String) (objects : List ObjectDetection) :
    Option (String × List ObjectDetection) :=
  match targets with
  | [] => none
  | t :: rest =>
    let ms := matchesFor t objects
    if ms.isEmpty then findTarget rest objects else some (t, ms)

/-- The phrase-variant matrix of `_path_smoothing_instruction`, keyed by
(direction, distance); the catch-all cell is the singleton
`"Move {direction} ({distance})."`. -/
def phraseList (tr direction distance : String) : List String :=
  match direction, distance with
  | "center", "very close" =>
    [tr ++ " is right in front. Slow and steady.",
     "Almost there—" ++ tr ++ " directly ahead, ease forward."]
  | "center", "close" =>
    [tr ++ " straight ahead, move forward carefully.",
     "Head straight—" ++ tr ++ " is just ahead."]
  | "center", "medium" =>
    [tr ++ " ahead, continue forward.", "Keep going straight toward " ++ tr ++ "."]
  | "center", "far" =>
    [tr ++ " further ahead, steady pace.", "Stay centered and continue forward."]
  | "center", "very far" =>
    [tr ++ " is far ahead, you can walk confidently.", "Long way ahead—proceed straight."]
  | "slightly left", "very close" =>
    [tr ++ " just left, small step left then forward.",
     "Tiny left adjustment, then move ahead."]
  | "slightly left", "close" =>
    ["Drift a little left toward " ++ tr ++ ".", "Slight left, then forward."]
  | "slightly left", "medium" =>
    ["Slight left adjustment toward " ++ tr ++ ".", "Nudge left and go ahead."]
  | "slightly left", "far" =>
    ["Angle slightly left to line up with " ++ tr ++ ".", "Veer gently left then continue."]
  | "slightly left", "very far" =>
    ["Turn a touch left and continue toward it.",
     "Bring your direction a bit left and walk on."]
  | "left", "very close" =>
    [tr ++ " is close on your left—turn carefully.",
     "Slow left turn, " ++ tr ++ " is right there."]
  | "left", "close" =>
    ["Turn left and move forward slowly.", "Left turn now, then straight."]
  | "left", "medium" =>
    ["Turn left toward " ++ tr ++ " then walk ahead.", "Face left and proceed forward."]
  | "left", "far" =>
    ["Turn left and advance toward it.", "Rotate left then continue walking."]
  | "left", "very far" =>
    ["Head left and keep a steady pace.", "Take a left heading and continue."]
  | "hard left", "very close" =>
    ["Sharp left needed now—go slowly.", "Hard left turn here, take care."]
  | "hard left", "close" =>
    ["Make a firm left turn toward " ++ tr ++ ".", "Strong left turn, then forward."]
  | "hard left", "medium" =>
    ["Hard left to align, then continue.", "Pivot left sharply and proceed."]
  | "hard left", "far" =>
    ["Big left turn, then head forward.", "Swing left strongly and advance."]
  | "hard left", "very far" =>
    ["Hard left then steady walk ahead.", "Rotate left fully and continue."]
  | "slightly right", "very close" =>
    ["Just right a little, then ahead.", "Tiny step right then move forward."]
  | "slightly right", "close" =>
    ["Ease slightly right toward " ++ tr ++ ".", "Shift a bit right then continue."]
  | "slightly right", "medium" =>
    ["Nudge right and go on.", "Slight right correction then forward."]
  | "slightly right", "far" =>
    ["Angle a little right then continue.", "Veer gently right toward it."]
  | "slightly right", "very far" =>
    ["Turn a touch right and walk forward.",
     "Bring your direction a bit right and proceed."]
  | "right", "very close" =>
    [tr ++ " close on your right—turn carefully.", "Slow right turn, it\x27s right there."]
  | "right", "close" =>
    ["Turn right and move forward slowly.", "Right turn now, then straight ahead."]
  | "right", "medium" =>
    ["Turn right toward " ++ tr ++ " then walk ahead.", "Face right and proceed forward."]
  | "right", "far" =>
    ["Turn right and advance toward it.", "Rotate right then continue walking."]
  | "right", "very far" =>
    ["Head right and keep a steady pace.", "Take a right heading and continue."]
  | "hard right", "very close" =>
    ["Sharp right needed now—go slowly.", "Hard right turn here, take care."]
  | "hard right", "close" =>
    ["Make a firm right turn toward " ++ tr ++ ".", "Strong right turn, then forward."]
  | "hard right", "medium" =>
    ["Hard right to align, then continue.", "Pivot right sharply and proceed."]
  | "hard right", "far" =>
    ["Big right turn, then head forward.", "Swing right strongly and advance."]
  | "hard right", "very far" =>
    ["Hard right then steady walk ahead.", "Rotate right fully and continue."]
  | _, _ => ["Move " ++ direction ++ " (" ++ distance ++ ")."]

/-- The human-readable target reference of `_path_smoothing_instruction`
(the source's `article` variable is `"the"` on both of its branches). -/
def targetRef (target_name : Option String) (target_count : ℕ) : String :=
  match target_name with
  | some t =>
    if t ≠ "" ∧ t ≠ "path" then
      (if 1 < target_count then "the " ++ t ++ "s" else pyStrip ("the " ++ t))
    else if t = "path" then "the clear path"
    else "it"
  | none => "it"

/-- Embedding of `_path_smoothing_instruction`: deterministic phrase-variant pick via the
process string hash `hashFn` on `direction + distance`, obstacle warnings for
up to 2 close obstacles, low-confidence caveat below 0.4, and trailing
punctuation normalization. -/
def _path_smoothing_instruction (hashFn : String → ℤ) (direction_info : DirectionInfo)
    (obstacles : List Obstacle) (target_name : Option String) : String :=
  let direction := direction_info.direction
  let distance := direction_info.distance
  let confidence := direction_info.confidence
  let target_count := direction_info.target_count
  let tr := targetRef target_name target_count
  let lst := phraseList tr direction distance
  let idx := (hashFn (direction ++ distance)).natAbs % lst.length
  let base0 := lst.getD idx ""
  let close_obs := obstacles.filter fun ob => ob.distance = "very close" ∨ ob.distance = "close"
  let base1 :=
    if close_obs.isEmpty then base0
    else base0 ++ ". Watch for " ++
      String.intercalate ", " ((close_obs.take 2).map fun ob => ob.name ++ " " ++ ob.position)
      ++ "."
  let base2 := if confidence < 0.4 then base1 ++ " I\x27m not fully sure—double check." else base1
  let stripped := pyStrip base2
  if endsPunct stripped then stripped else stripped ++ "."

/-- The guidance dictionary assembled by `_compute_guidance`. -/
structure GuidanceResult where
  target : Option String
  direction : String
  distance : String
  confidence : ℚ
  instruction : String
  obstacles : List Obstacle
  target_count : ℕ
  navigation_data : Option NavData
deriving DecidableEq, Repr

/-- Embedding of `_compute_guidance`: extract targets, match the first keyword with a
non-empty match set, resolve direction (falling back to the free-path finder
when unresolved, with the target name defaulted to "path"), analyze
obstacles, and synthesize the instruction on the precise or fallback path.
`none` models a propagated Python exception. -/
def _compute_guidance (hashFn : String → ℤ) (objects : List ObjectDetection)
    (question : String) (img_width img_height : ℚ) : Option GuidanceResult :=
  let targets := _extract_targets question
  let found := findTarget targets objects
  let target_objs := (found.map Prod.snd).getD []
  match _direction_for_targets target_objs img_width img_height with
  | none => none
  | some dinfo0 =>
    let dinfo :=
      if dinfo0.direction = "unknown" then
        let fp := _free_path_direction objects img_width
        { dinfo0 with direction := fp.direction, distance := fp.distance,
                      confidence := fp.confidence }
      else dinfo0
    let target_name :=
      if dinfo0.direction = "unknown" ∧ found.isNone then some "path"
      else found.map Prod.fst
    match _analyze_obstacles objects target_objs img_width img_height with
    | none => none
    | some obstacles =>
      let instruction :=
        match dinfo.navigation with
        | some nav =>
          let close_obs :=
            obstacles.filter fun ob => ob.distance = "very close" ∨ ob.distance = "close"
          match close_obs with
          | [] => nav.full_instruction
          | ob :: _ =>
            nav.full_instruction ++ " Caution: " ++ ob.name ++ " detected " ++
              ob.position ++ "."
        | none => _path_smoothing_instruction hashFn dinfo obstacles target_name
      some
        { target := target_name
          direction := dinfo.direction
          distance := dinfo.distance
          confidence := dinfo.confidence
          instruction := instruction
          obstacles := obstacles
          target_count := dinfo.target_count
          navigation_data := dinfo.navigation }

/-! ### Helper lemmas -/

lemma endsPunct_append_dot (s : String) : endsPunct (s ++ ".") = true := by
  simp [endsPunct, String.data_append]

lemma roundTiesEven_nonpos {x : ℚ} (hx : x ≤ 0) : roundTiesEven x ≤ 0 := by
  have hf : ⌊x⌋ ≤ 0 := Int.floor_nonpos hx
  have key : ⌊x⌋ = 0 → x - (⌊x⌋ : ℚ) < 1/2 := by
    intro h0
    rw [h0]
    push_cast
    linarith
  unfold roundTiesEven
  split
  · exact hf
  · rename_i h1
    have hne : ⌊x⌋ ≠ 0 := fun h0 => h1 (key h0)
    split
    · omega
    · split
      · exact hf
      · omega

lemma roundTiesEven_nonneg {x : ℚ} (hx : 0 ≤ x) : 0 ≤ roundTiesEven x := by
  have hf : 0 ≤ ⌊x⌋ := Int.floor_nonneg.mpr hx
  unfold roundTiesEven
  split
  · exact hf
  · split
    · omega
    · split
      · exact hf
      · omega

lemma roundTiesEven_zero : roundTiesEven 0 = 0 := by
  have h0 : ⌊(0 : ℚ)⌋ = 0 := Int.floor_zero
  unfold roundTiesEven
  rw [h0]
  norm_num

lemma round1_nonpos {x : ℚ} (hx : x ≤ 0) : round1 x ≤ 0 := by
  have h : roundTiesEven (x * 10) ≤ 0 := roundTiesEven_nonpos (by nlinarith)
  have h' : ((roundTiesEven (x * 10) : ℤ) : ℚ) ≤ 0 := by exact_mod_cast h
  have h10 : (0 : ℚ) < 10 := by norm_num
  unfold round1
  rw [div_le_iff₀ h10]
  linarith

lemma round1_nonneg {x : ℚ} (hx : 0 ≤ x) : 0 ≤ round1 x := by
  have h : 0 ≤ roundTiesEven (x * 10) := roundTiesEven_nonneg (by nlinarith)
  have h' : (0 : ℚ) ≤ ((roundTiesEven (x * 10) : ℤ) : ℚ) := by exact_mod_cast h
  have h10 : (0 : ℚ) < 10 := by norm_num
  unfold round1
  rw [le_div_iff₀ h10]
  linarith

lemma round1_zero : round1 0 = 0 := by
  have : roundTiesEven (0 * 10) = 0 := by
    rw [zero_mul]
    exact roundTiesEven_zero
  unfold round1
  rw [this]
  norm_num

/-! ### C2: zero-height boxes make the precise-position computation fail -/

/-- C2: the claim says a zero-pixel-height box is treated as degenerate and
yields the zeroed/"unknown" result.  The code instead evaluates
`(real_size * focal_length_approx) / height` with `height = 0` and raises
`ZeroDivisionError` (modelled as `none`): for the 4-element box
`[100, 200, 150, 200]` (so `y2 = y1 = 200`) the computation fails rather
than returning the degenerate dictionary. -/
theorem zero_height_box_raises :
    _calculate_precise_position ⟨"person", 0.9, some [100, 200, 150, 200]⟩ 640 480 = none ∧
    _calculate_precise_position ⟨"person", 0.9, some [100, 200, 150, 200]⟩ 640 480 ≠
      some .degenerate := by
  have h0 : _calculate_precise_position ⟨"person", 0.9, some [100, 200, 150, 200]⟩ 640 480 =
      none := by
    simp only [_calculate_precise_position]
    rw [if_pos (by norm_num : (200 : ℚ) - 200 = 0)]
  refine ⟨h0, ?_⟩
  rw [h0]
  simp

/-! ### C8: sign of the returned angle -/

lemma abs_small_neg : |(-3/128 : ℚ)| < 5 := by
  rw [abs_lt]
  constructor <;> norm_num

/-- Concrete evaluation of `_calculate_precise_position` on a box whose
center (319.75) is half a pixel left of the frame center (320): the
pre-rounding angular offset is −3/128°, and rounding to one decimal kills
the sign, so the returned angle is exactly 0. -/
lemma calcEval_left_half_pixel :
    _calculate_precise_position ⟨"person", 0.9, some [319.5, 100, 320, 200]⟩ 640 480 =
      some (.ok ⟨0, 8.2, "directly ahead", (320, 150), (0, 100), 0.9⟩) := by
  have hlow : lowerStr "person" = "person" := by decide
  simp only [_calculate_precise_position, hlow]
  rw [if_neg (by norm_num)]
  simp only [Option.some.injEq, PrecisePos.ok.injEq, PrecisePosition.mk.injEq, Prod.mk.injEq]
  have hoff : (((319.5 : ℚ) + 320) / 2 - 640 / 2) / (640 / 60) = -3/128 := by norm_num
  and_intros
  · rw [hoff]
    unfold round1 roundTiesEven
    norm_num
  · rw [show object_real_sizes "person" * 480 / (200 - 100) = 204/25 by
      unfold object_real_sizes; norm_num]
    rw [min_eq_left (by norm_num : (204 : ℚ)/25 ≤ 100.0),
      max_eq_right (by norm_num : (0.5 : ℚ) ≤ 204/25)]
    unfold round1 roundTiesEven
    norm_num
  · rw [hoff]
    unfold positionBucket
    rw [if_pos abs_small_neg]
  · unfold round0 roundTiesEven
    norm_num
  · unfold round0 roundTiesEven
    norm_num
  · unfold round0 roundTiesEven
    norm_num
  · unfold round0 roundTiesEven
    norm_num
  · trivial

/-- C8 (counterexample): a detection whose box center is strictly left of the
frame center for which the returned angle is 0, not strictly negative — the
1-decimal rounding of the −0.0234° offset loses the sign. -/
theorem angle_not_strictly_negative_left_of_center :
    (((319.5 : ℚ) + 320) / 2 < 640 / 2) ∧
    _calculate_precise_position ⟨"person", 0.9, some [319.5, 100, 320, 200]⟩ 640 480 =
      some (.ok ⟨0, 8.2, "directly ahead", (320, 150), (0, 100), 0.9⟩) ∧
    ¬((0 : ℚ) < 0) := by
  exact ⟨by norm_num, calcEval_left_half_pixel, by norm_num⟩

/-- C8 (amended): for every detection with a valid 4-element bounding box and
positive frame width, the angle returned by `_calculate_precise_position` is
≤ 0 when the box center is left of the frame's horizontal center, ≥ 0 when it
is right of center, and exactly 0 when it coincides with the center
(strictness can be lost for offsets below 0.05° because the angle is rounded
to one decimal). -/
theorem angle_sign_weak (name : String) (conf x1 y1 x2 y2 w h : ℚ) (hw : 0 < w)
    (p : PrecisePosition)
    (hp : _calculate_precise_position ⟨name, conf, some [x1, y1, x2, y2]⟩ w h =
      some (.ok p)) :
    ((x1 + x2) / 2 < w / 2 → p.angle ≤ 0) ∧
    (w / 2 < (x1 + x2) / 2 → 0 ≤ p.angle) ∧
    ((x1 + x2) / 2 = w / 2 → p.angle = 0) := by
  have hppd : (0 : ℚ) < w / 60 := by positivity
  simp only [_calculate_precise_position] at hp
  split at hp
  · exact absurd hp (by simp)
  · rw [Option.some.injEq, PrecisePos.ok.injEq] at hp
    have hangle : p.angle = round1 (((x1 + x2) / 2 - w / 2) / (w / 60)) := by
      rw [← hp]
    refine ⟨fun hlt => ?_, fun hgt => ?_, fun heq => ?_⟩
    · rw [hangle]
      exact round1_nonpos (le_of_lt (div_neg_of_neg_of_pos (by linarith) hppd))
    · rw [hangle]
      exact round1_nonneg (le_of_lt (div_pos (by linarith) hppd))
    · rw [hangle, show (x1 + x2) / 2 - w / 2 = 0 by linarith, zero_div]
      exact round1_zero

/-- Witness for `angle_sign_weak` at a concrete left-of-center box. -/
theorem angle_sign_weak_witness :
    ((319.5 : ℚ) + 320) / 2 < 640 / 2 ∧ (0 : ℚ) ≤ 0 :=
  ⟨by norm_num,
    (angle_sign_weak "person" 0.9 319.5 100 320 200 640 480 (by norm_num)
      ⟨0, 8.2, "directly ahead", (320, 150), (0, 100), 0.9⟩
      calcEval_left_half_pixel).1 (by norm_num)⟩

/-! ### C4: determinism of the guidance engine -/

/-- C4: with the process string hash made an explicit parameter, two
invocations of `_compute_guidance` on identical inputs are equal (the engine
consults no other state), and `_path_smoothing_instruction` depends on the
direction-info dictionary only through the four fields it reads —
`direction`, `distance`, `confidence`, `target_count` — so the fallback
phrase-variant choice is a deterministic function of the
(direction, distance) pair and involves no hidden randomness. -/
theorem guidance_deterministic (hashFn : String → ℤ) (objects : List ObjectDetection)
    (question : String) (w h : ℚ) (info1 info2 : DirectionInfo)
    (obstacles : List Obstacle) (target_name : Option String)
    (h1 : info1.direction = info2.direction) (h2 : info1.distance = info2.distance)
    (h3 : info1.confidence = info2.confidence)
    (h4 : info1.target_count = info2.target_count) :
    _compute_guidance hashFn objects question w h =
      _compute_guidance hashFn objects question w h ∧
    _path_smoothing_instruction hashFn info1 obstacles target_name =
      _path_smoothing_instruction hashFn info2 obstacles target_name := by
  refine ⟨rfl, ?_⟩
  unfold _path_smoothing_instruction
  rw [h1, h2, h3, h4]

/-- Witness for `guidance_deterministic`: the two direction-info records
differ in their `navigation` payload yet produce the same instruction. -/
theorem guidance_deterministic_witness :
    _compute_guidance (fun _ => 0) [] "" 640 480 = _compute_guidance (fun _ => 0) [] "" 640 480 ∧
    _path_smoothing_instruction (fun _ => 0)
        ⟨"center", "close", 1, 0, none⟩ [] (some "path") =
      _path_smoothing_instruction (fun _ => 0)
        ⟨"center", "close", 1, 0, some ⟨0, 0, "", "", "", "", (0, 0)⟩⟩ [] (some "path") :=
  guidance_deterministic (fun _ => 0) [] "" 640 480
    ⟨"center", "close", 1, 0, none⟩
    ⟨"center", "close", 1, 0, some ⟨0, 0, "", "", "", "", (0, 0)⟩⟩
    [] (some "path") rfl rfl rfl rfl

/-! ### C6: the distance classifier's labels and thresholds -/

/-- C6: `_estimate_distance` always returns one of the six enumerated labels;
it returns "unknown" exactly when the box is missing or not a 4-element list;
and on a valid box it follows exactly the descending thresholds on
(rel_height, rel_bottom). -/
theorem estimate_distance_labels (name : String) (conf : ℚ) (bb : Option (List ℚ))
    (h : ℚ) (hpos : 0 < h) :
    (_estimate_distance ⟨name, conf, bb⟩ h = "very close" ∨
      _estimate_distance ⟨name, conf, bb⟩ h = "close" ∨
      _estimate_distance ⟨name, conf, bb⟩ h = "medium" ∨
      _estimate_distance ⟨name, conf, bb⟩ h = "far" ∨
      _estimate_distance ⟨name, conf, bb⟩ h = "very far" ∨
      _estimate_distance ⟨name, conf, bb⟩ h = "unknown") ∧
    ((∀ x1 y1 x2 y2 : ℚ, bb ≠ some [x1, y1, x2, y2]) ↔
      _estimate_distance ⟨name, conf, bb⟩ h = "unknown") ∧
    (∀ x1 y1 x2 y2 : ℚ, bb = some [x1, y1, x2, y2] →
      _estimate_distance ⟨name, conf, bb⟩ h =
        (if 0.4 < (y2 - y1) / h ∧ 0.7 < y2 / h then "very close"
         else if 0.25 < (y2 - y1) / h ∧ 0.6 < y2 / h then "close"
         else if 0.15 < (y2 - y1) / h ∧ 0.5 < y2 / h then "medium"
         else if 0.08 < (y2 - y1) / h then "far"
         else "very far")) := by
  rcases bb with _ | l
  · refine ⟨Or.inr (Or.inr (Or.inr (Or.inr (Or.inr rfl)))), ?_, ?_⟩
    · simp [show _estimate_distance ⟨name, conf, none⟩ h = "unknown" from rfl]
    · intro x1 y1 x2 y2 heq
      exact absurd heq (by simp)
  · rcases l with _ | ⟨a, _ | ⟨b, _ | ⟨c, _ | ⟨d, _ | ⟨e, rest⟩⟩⟩⟩⟩
    · exact ⟨Or.inr (Or.inr (Or.inr (Or.inr (Or.inr rfl)))),
        ⟨fun _ => rfl, fun _ x1 y1 x2 y2 heq => by simp at heq⟩,
        fun x1 y1 x2 y2 heq => by simp at heq⟩
    · exact ⟨Or.inr (Or.inr (Or.inr (Or.inr (Or.inr rfl)))),
        ⟨fun _ => rfl, fun _ x1 y1 x2 y2 heq => by simp at heq⟩,
        fun x1 y1 x2 y2 heq => by simp at heq⟩
    · exact ⟨Or.inr (Or.inr (Or.inr (Or.inr (Or.inr rfl)))),
        ⟨fun _ => rfl, fun _ x1 y1 x2 y2 heq => by simp at heq⟩,
        fun x1 y1 x2 y2 heq => by simp at heq⟩
    · exact ⟨Or.inr (Or.inr (Or.inr (Or.inr (Or.inr rfl)))),
        ⟨fun _ => rfl, fun _ x1 y1 x2 y2 heq => by simp at heq⟩,
        fun x1 y1 x2 y2 heq => by simp at heq⟩
    · refine ⟨?_, ?_, ?_⟩
      · dsimp only [_estimate_distance]
        split_ifs <;> simp
      · constructor
        · intro hne
          exact absurd rfl (hne a b c d)
        · intro hr
          exfalso
          revert hr
          dsimp only [_estimate_distance]
          split_ifs <;> decide
      · intro x1 y1 x2 y2 heq
        simp only [Option.some.injEq, List.cons.injEq, and_true] at heq
        obtain ⟨h1, h2, h3, h4⟩ := heq
        subst h1; subst h2; subst h3; subst h4
        rfl
    · exact ⟨Or.inr (Or.inr (Or.inr (Or.inr (Or.inr rfl)))),
        ⟨fun _ => rfl, fun _ x1 y1 x2 y2 heq => by simp at heq⟩,
        fun x1 y1 x2 y2 heq => by simp at heq⟩

/-- Witness for `estimate_distance_labels` on a detection with no box. -/
theorem estimate_distance_labels_witness :
    _estimate_distance ⟨"x", 1, none⟩ 480 = "very close" ∨
    _estimate_distance ⟨"x", 1, none⟩ 480 = "close" ∨
    _estimate_distance ⟨"x", 1, none⟩ 480 = "medium" ∨
    _estimate_distance ⟨"x", 1, none⟩ 480 = "far" ∨
    _estimate_distance ⟨"x", 1, none⟩ 480 = "very far" ∨
    _estimate_distance ⟨"x", 1, none⟩ 480 = "unknown" :=
  (estimate_distance_labels "x" 1 none 480 (by norm_num)).1

/-! ### C1: totality of the free-path finder -/

lemma freePathLabel_mem (rel : ℚ) :
    freePathLabel rel ∈ (["center", "slightly left", "slightly right", "left", "right",
      "hard left", "hard right"] : List String) := by
  unfold freePathLabel
  split_ifs <;> simp

/-- C1: `_free_path_direction` always answers with one of the seven fixed
direction labels (it has no "no result" outcome), and whenever no detection
projects a valid horizontal interval — in particular for an empty detection
list — it returns direction "center" with distance "clear". -/
theorem free_path_guarantees (objects : List ObjectDetection) (w : ℚ) (hw : 0 < w) :
    ((_free_path_direction objects w).direction ∈
      (["center", "slightly left", "slightly right", "left", "right",
        "hard left", "hard right"] : List String)) ∧
    (intervalsOf objects w = [] →
      _free_path_direction objects w = ⟨"center", "clear", 0.5⟩) ∧
    (objects = [] → _free_path_direction objects w = ⟨"center", "clear", 0.5⟩) := by
  refine ⟨?_, ?_, ?_⟩
  · unfold _free_path_direction
    cases hI : intervalsOf objects w with
    | nil => simp
    | cons i is =>
      dsimp only
      cases hg : gapsOf 0 (mergedOf (i :: is)) with
      | nil =>
        dsimp only
        split_ifs <;> simp
      | cons g gs =>
        dsimp only
        exact freePathLabel_mem _
  · intro hI
    unfold _free_path_direction
    rw [hI]
  · intro hobj
    subst hobj
    rfl

/-- Witness for `free_path_guarantees` on the empty detection list. -/
theorem free_path_guarantees_witness :
    (_free_path_direction [] 640).direction ∈
      (["center", "slightly left", "slightly right", "left", "right",
        "hard left", "hard right"] : List String) ∧
    _free_path_direction [] 640 = ⟨"center", "clear", 0.5⟩ :=
  ⟨(free_path_guarantees [] 640 (by norm_num)).1,
    (free_path_guarantees [] 640 (by norm_num)).2.2 rfl⟩

/-! ### C10: the fully-tiled fallback branch -/

/-- C10: when the occupied intervals are non-empty and the merged intervals
leave no gap wider than 0.05, `_free_path_direction` picks "left" exactly
when the coverage left of the 0.5 midline is strictly smaller than the
coverage right of it and "right" otherwise — in particular "right" on exact
ties — with constant confidence 0.3. -/
theorem tiled_frame_side_choice (objects : List ObjectDetection) (w : ℚ) (hw : 0 < w)
    (i : ℚ × ℚ) (is : List (ℚ × ℚ)) (hI : intervalsOf objects w = i :: is)
    (hg : gapsOf 0 (mergedOf (i :: is)) = []) :
    ((_free_path_direction objects w).direction = "left" ↔
      leftCoverage (mergedOf (i :: is)) < rightCoverage (mergedOf (i :: is))) ∧
    ((_free_path_direction objects w).direction = "right" ↔
      ¬ leftCoverage (mergedOf (i :: is)) < rightCoverage (mergedOf (i :: is))) ∧
    (leftCoverage (mergedOf (i :: is)) = rightCoverage (mergedOf (i :: is)) →
      (_free_path_direction objects w).direction = "right") ∧
    (_free_path_direction objects w).confidence = 0.3 := by
  have hfp : _free_path_direction objects w =
      ⟨if leftCoverage (mergedOf (i :: is)) < rightCoverage (mergedOf (i :: is))
          then "left" else "right",
        _nearest_obstacle_distance objects, 0.3⟩ := by
    unfold _free_path_direction
    rw [hI]
    dsimp only
    rw [hg]
  rw [hfp]
  by_cases hc : leftCoverage (mergedOf (i :: is)) < rightCoverage (mergedOf (i :: is))
  · rw [if_pos hc]
    dsimp only
    refine ⟨⟨fun _ => hc, fun _ => rfl⟩, ⟨fun hr => absurd hr (by decide),
      fun hn => absurd hc hn⟩, fun he => absurd hc (by rw [he]; exact lt_irrefl _), rfl⟩
  · rw [if_neg hc]
    dsimp only
    exact ⟨⟨fun hr => absurd hr (by decide), fun hlt => absurd hlt hc⟩,
      ⟨fun _ => hc, fun _ => rfl⟩, fun _ => rfl, rfl⟩

/-- Witness for `tiled_frame_side_choice`: one box spanning the whole frame
tiles it completely (the coverages tie at 0.5 each, so "right" is chosen). -/
theorem tiled_frame_side_choice_witness :
    ((_free_path_direction [⟨"a", 1, some [0, 0, 640, 480]⟩] 640).direction = "left" ↔
      leftCoverage (mergedOf [((0 : ℚ), (1 : ℚ))]) <
        rightCoverage (mergedOf [((0 : ℚ), (1 : ℚ))])) ∧
    ((_free_path_direction [⟨"a", 1, some [0, 0, 640, 480]⟩] 640).direction = "right" ↔
      ¬ leftCoverage (mergedOf [((0 : ℚ), (1 : ℚ))]) <
        rightCoverage (mergedOf [((0 : ℚ), (1 : ℚ))])) ∧
    (leftCoverage (mergedOf [((0 : ℚ), (1 : ℚ))]) =
        rightCoverage (mergedOf [((0 : ℚ), (1 : ℚ))]) →
      (_free_path_direction [⟨"a", 1, some [0, 0, 640, 480]⟩] 640).direction = "right") ∧
    (_free_path_direction [⟨"a", 1, some [0, 0, 640, 480]⟩] 640).confidence = 0.3 := by
  apply tiled_frame_side_choice
  · norm_num
  · simp only [intervalsOf, List.filterMap]
    norm_num
  · simp only [mergedOf, List.insertionSort, List.orderedInsert, mergeLoop, gapsOf]
    norm_num

/-! ### C5: the target-matching rule -/

/-- The match rule as the specification words it: the keyword is a substring
of the label OR the label is a substring of the keyword, case-insensitively. -/
def specKeywordMatch (keyword : String) (o : ObjectDetection) : Bool :=
  isSubstr (lowerStr keyword) (lowerStr o.name) ||
    isSubstr (lowerStr o.name) (lowerStr keyword)

/-- C5 (counterexample): for query "find persons" the extractor yields the
keyword "persons"; the claim's symmetric rule matches label "person" (the
label is a substring of the keyword), but the code's one-directional test
`t in o.name.lower()` does not, so the matched set is empty and no target
resolves at all. -/
theorem keyword_match_not_symmetric :
    specKeywordMatch "persons" ⟨"person", 0.9, some [100, 100, 200, 400]⟩ = true ∧
    matchesFor "persons" [⟨"person", 0.9, some [100, 100, 200, 400]⟩] = [] ∧
    "persons" ∈ _extract_targets "find persons" ∧
    findTarget (_extract_targets "find persons")
      [⟨"person", 0.9, some [100, 100, 200, 400]⟩] = none := by
  refine ⟨by decide, ?_, by decide, ?_⟩
  · simp only [matchesFor, List.filter_cons, List.filter_nil]
    rw [show isSubstr "persons" (lowerStr "person") = false from by decide]
    rfl
  · rw [show _extract_targets "find persons" = ["find", "persons"] from by decide]
    simp only [findTarget, matchesFor, List.filter_cons, List.filter_nil]
    rw [show isSubstr "find" (lowerStr "person") = false from by decide,
      show isSubstr "persons" (lowerStr "person") = false from by decide]
    rfl

/-- C5 (amended): the code's selection is one-directional — a detection is
matched exactly when the extracted keyword is a substring of its lower-cased
label (the label-in-keyword direction of the claim does not hold).  Whenever
the target-search loop resolves `(t, ms)`, `t` is one of the extracted
keywords and `ms` is precisely the set of detections whose lower-cased label
contains `t`. -/
theorem target_match_filter (targets : List String) (objects : List ObjectDetection)
    (t : String) (ms : List ObjectDetection)
    (hfind : findTarget targets objects = some (t, ms)) :
    t ∈ targets ∧ ms ≠ [] ∧
    ∀ o, (o ∈ ms ↔ o ∈ objects ∧ isSubstr t (lowerStr o.name) = true) := by
  induction targets with
  | nil => exact absurd hfind (by simp [findTarget])
  | cons t0 rest ih =>
    simp only [findTarget] at hfind
    by_cases he : (matchesFor t0 objects).isEmpty
    · rw [if_pos he] at hfind
      obtain ⟨h1, h2, h3⟩ := ih hfind
      exact ⟨List.mem_cons_of_mem _ h1, h2, h3⟩
    · rw [if_neg he] at hfind
      rw [Option.some.injEq, Prod.mk.injEq] at hfind
      obtain ⟨ht, hms⟩ := hfind
      subst ht
      refine ⟨List.mem_cons_self _ _, ?_, ?_⟩
      · rw [← hms]
        exact List.isEmpty_eq_false.mp (Bool.not_eq_true _ ▸ he)
      · intro o
        rw [← hms]
        exact List.mem_filter


/-- Witness for `target_match_filter` with keyword "person" matching the
label "person". -/
theorem target_match_filter_witness :
    "person" ∈ ["person"] ∧ ([⟨"person", (0.9 : ℚ), none⟩] : List ObjectDetection) ≠ [] ∧
    ∀ o, (o ∈ ([⟨"person", (0.9 : ℚ), none⟩] : List ObjectDetection) ↔
      o ∈ ([⟨"person", (0.9 : ℚ), none⟩] : List ObjectDetection) ∧
        isSubstr "person" (lowerStr o.name) = true) :=
  target_match_filter ["person"] [⟨"person", 0.9, none⟩] "person" [⟨"person", 0.9, none⟩]
    (by
      have hb : isSubstr "person" (lowerStr "person") = true := by decide
      simp [findTarget, matchesFor, hb])

/-! ### C7: the direction resolver -/

lemma minByFirst_le (f : α → ℚ) (b : α) (l : List α) :
    f (minByFirst f b l) ≤ f b ∧ ∀ x ∈ l, f (minByFirst f b l) ≤ f x := by
  induction l generalizing b with
  | nil => exact ⟨le_refl _, fun x hx => absurd hx (List.not_mem_nil x)⟩
  | cons y ys ih =>
    simp only [minByFirst]
    by_cases hc : f y < f b
    · rw [if_pos hc]
      obtain ⟨h1, h2⟩ := ih y
      refine ⟨le_trans h1 (le_of_lt hc), fun x hx => ?_⟩
      rcases List.mem_cons.mp hx with h | h
      · rw [h]
        exact h1
      · exact h2 x h
    · rw [if_neg hc]
      obtain ⟨h1, h2⟩ := ih b
      push_neg at hc
      refine ⟨h1, fun x hx => ?_⟩
      rcases List.mem_cons.mp hx with h | h
      · rw [h]
        exact le_trans h1 hc
      · exact h2 x h

lemma optionMapList_ok (l : List PrecisePosition) :
    optionMapList (fun p => match p with | .ok q => some q | .degenerate => none)
      (l.map PrecisePos.ok) = some l := by
  induction l with
  | nil => rfl
  | cons p ps ih => simp only [List.map_cons, optionMapList, ih]

/-- The best target of `_direction_for_targets`: the candidate with the
smallest (rounded) estimated metric distance, the earlier one on ties. -/
def bestOf (p : PrecisePosition) (ps : List PrecisePosition) : PrecisePosition :=
  minByFirst PrecisePosition.distance_meters p ps

/-- C7: when every matched candidate produces a full precise-position record,
`_direction_for_targets` selects the smallest-distance candidate as best
target, reports the arithmetic mean of all candidates' confidences,
classifies the turn by the absolute-angle thresholds 2°/10°/30°/60°, and an
empty candidate list yields direction "unknown". -/
theorem direction_resolver_best_target (target_objs : List ObjectDetection) (w h : ℚ)
    (hw : 0 < w) (hh : 0 < h) (p : PrecisePosition) (ps : List PrecisePosition)
    (hne : target_objs ≠ [])
    (hpos : optionMapList (fun o => _calculate_precise_position o w h) target_objs =
      some ((p :: ps).map PrecisePos.ok)) :
    (∀ q ∈ p :: ps, (bestOf p ps).distance_meters ≤ q.distance_meters) ∧
    _direction_for_targets target_objs w h = some
      { direction := turnDirection (bestOf p ps).angle
        distance := distanceDesc (bestOf p ps).distance_meters
        confidence := ((p :: ps).map PrecisePosition.confidence).sum / (((p :: ps).length : ℚ))
        target_count := target_objs.length
        navigation := some
          { angle_degrees := (bestOf p ps).angle
            distance_meters := (bestOf p ps).distance_meters
            turn_instruction := turnInstructionFor (bestOf p ps).angle
            approach_instruction := approachFor (bestOf p ps).distance_meters
            full_instruction :=
              fullInstructionFor (bestOf p ps).angle (bestOf p ps).distance_meters
            position_description := (bestOf p ps).position
            coordinates := (bestOf p ps).coordinates } } ∧
    ((|(bestOf p ps).angle| < 2 → turnDirection (bestOf p ps).angle = "straight") ∧
     (2 ≤ |(bestOf p ps).angle| → |(bestOf p ps).angle| < 10 →
       turnDirection (bestOf p ps).angle =
         (if (bestOf p ps).angle < 0 then "slight_left" else "slight_right")) ∧
     (10 ≤ |(bestOf p ps).angle| → |(bestOf p ps).angle| < 30 →
       turnDirection (bestOf p ps).angle =
         (if (bestOf p ps).angle < 0 then "left" else "right")) ∧
     (30 ≤ |(bestOf p ps).angle| → |(bestOf p ps).angle| < 60 →
       turnDirection (bestOf p ps).angle =
         (if (bestOf p ps).angle < 0 then "sharp_left" else "sharp_right")) ∧
     (60 ≤ |(bestOf p ps).angle| →
       turnDirection (bestOf p ps).angle =
         (if (bestOf p ps).angle < 0 then "turn_around_left" else "turn_around_right"))) ∧
    _direction_for_targets [] w h = some ⟨"unknown", "unknown", 0, 0, none⟩ := by
  obtain ⟨o, os, rfl⟩ : ∃ o os, target_objs = o :: os := by
    rcases target_objs with _ | ⟨o, os⟩
    · exact absurd rfl hne
    · exact ⟨o, os, rfl⟩
  refine ⟨?_, ?_, ?_, rfl⟩
  · intro q hq
    have hm := minByFirst_le PrecisePosition.distance_meters p ps
    unfold bestOf
    rcases List.mem_cons.mp hq with hx | hx
    · rw [hx]
      exact hm.1
    · exact hm.2 q hx
  · simp only [_direction_for_targets]
    rw [hpos]
    simp only [optionMapList_ok]
    rfl
  · refine ⟨fun h1 => ?_, fun h1 h2 => ?_, fun h1 h2 => ?_, fun h1 h2 => ?_, fun h1 => ?_⟩ <;>
      unfold turnDirection
    · rw [if_pos h1]
    · rw [if_neg (not_lt.mpr h1), if_pos h2]
    · rw [if_neg (not_lt.mpr (by linarith)), if_neg (not_lt.mpr h1), if_pos h2]
    · rw [if_neg (not_lt.mpr (by linarith)), if_neg (not_lt.mpr (by linarith)),
        if_neg (not_lt.mpr h1), if_pos h2]
    · rw [if_neg (not_lt.mpr (by linarith)), if_neg (not_lt.mpr (by linarith)),
        if_neg (not_lt.mpr (by linarith)), if_neg (not_lt.mpr h1)]

/-- Witness for `direction_resolver_best_target` on a single matched person
detection. -/
theorem direction_resolver_best_target_witness :
    (∀ q ∈ [(⟨0, 8.2, "directly ahead", (320, 150), (0, 100), 0.9⟩ : PrecisePosition)],
      (bestOf ⟨0, 8.2, "directly ahead", (320, 150), (0, 100), 0.9⟩ []).distance_meters ≤
        q.distance_meters) ∧
    _direction_for_targets [⟨"person", 0.9, some [319.5, 100, 320, 200]⟩] 640 480 = some
      { direction := turnDirection
          (bestOf ⟨0, 8.2, "directly ahead", (320, 150), (0, 100), 0.9⟩ []).angle
        distance := distanceDesc
          (bestOf ⟨0, 8.2, "directly ahead", (320, 150), (0, 100), 0.9⟩ []).distance_meters
        confidence :=
          ([(⟨0, 8.2, "directly ahead", (320, 150), (0, 100), 0.9⟩ : PrecisePosition)].map
            PrecisePosition.confidence).sum /
          ((([(⟨0, 8.2, "directly ahead", (320, 150), (0, 100), 0.9⟩ :
            PrecisePosition)]).length : ℚ))
        target_count := [(⟨"person", 0.9, some [319.5, 100, 320, 200]⟩ :
          ObjectDetection)].length
        navigation := some
          { angle_degrees :=
              (bestOf ⟨0, 8.2, "directly ahead", (320, 150), (0, 100), 0.9⟩ []).angle
            distance_meters :=
              (bestOf ⟨0, 8.2, "directly ahead", (320, 150), (0, 100), 0.9⟩
                []).distance_meters
            turn_instruction := turnInstructionFor
              (bestOf ⟨0, 8.2, "directly ahead", (320, 150), (0, 100), 0.9⟩ []).angle
            approach_instruction := approachFor
              (bestOf ⟨0, 8.2, "directly ahead", (320, 150), (0, 100), 0.9⟩
                []).distance_meters
            full_instruction := fullInstructionFor
              (bestOf ⟨0, 8.2, "directly ahead", (320, 150), (0, 100), 0.9⟩ []).angle
              (bestOf ⟨0, 8.2, "directly ahead", (320, 150), (0, 100), 0.9⟩
                []).distance_meters
            position_description :=
              (bestOf ⟨0, 8.2, "directly ahead", (320, 150), (0, 100), 0.9⟩ []).position
            coordinates :=
              (bestOf ⟨0, 8.2, "directly ahead", (320, 150), (0, 100), 0.9⟩
                []).coordinates } } ∧
    ((|(bestOf ⟨0, 8.2, "directly ahead", (320, 150), (0, 100), 0.9⟩ []).angle| < 2 →
      turnDirection (bestOf ⟨0, 8.2, "directly ahead", (320, 150), (0, 100), 0.9⟩
        []).angle = "straight") ∧
     (2 ≤ |(bestOf ⟨0, 8.2, "directly ahead", (320, 150), (0, 100), 0.9⟩ []).angle| →
      |(bestOf ⟨0, 8.2, "directly ahead", (320, 150), (0, 100), 0.9⟩ []).angle| < 10 →
       turnDirection (bestOf ⟨0, 8.2, "directly ahead", (320, 150), (0, 100), 0.9⟩
         []).angle =
         (if (bestOf ⟨0, 8.2, "directly ahead", (320, 150), (0, 100), 0.9⟩ []).angle < 0
          then "slight_left" else "slight_right")) ∧
     (10 ≤ |(bestOf ⟨0, 8.2, "directly ahead", (320, 150), (0, 100), 0.9⟩ []).angle| →
      |(bestOf ⟨0, 8.2, "directly ahead", (320, 150), (0, 100), 0.9⟩ []).angle| < 30 →
       turnDirection (bestOf ⟨0, 8.2, "directly ahead", (320, 150), (0, 100), 0.9⟩
         []).angle =
         (if (bestOf ⟨0, 8.2, "directly ahead", (320, 150), (0, 100), 0.9⟩ []).angle < 0
          then "left" else "right")) ∧
     (30 ≤ |(bestOf ⟨0, 8.2, "directly ahead", (320, 150), (0, 100), 0.9⟩ []).angle| →
      |(bestOf ⟨0, 8.2, "directly ahead", (320, 150), (0, 100), 0.9⟩ []).angle| < 60 →
       turnDirection (bestOf ⟨0, 8.2, "directly ahead", (320, 150), (0, 100), 0.9⟩
         []).angle =
         (if (bestOf ⟨0, 8.2, "directly ahead", (320, 150), (0, 100), 0.9⟩ []).angle < 0
          then "sharp_left" else "sharp_right")) ∧
     (60 ≤ |(bestOf ⟨0, 8.2, "directly ahead", (320, 150), (0, 100), 0.9⟩ []).angle| →
       turnDirection (bestOf ⟨0, 8.2, "directly ahead", (320, 150), (0, 100), 0.9⟩
         []).angle =
         (if (bestOf ⟨0, 8.2, "directly ahead", (320, 150), (0, 100), 0.9⟩ []).angle < 0
          then "turn_around_left" else "turn_around_right"))) ∧
    _direction_for_targets [] 640 480 = some ⟨"unknown", "unknown", 0, 0, none⟩ :=
  direction_resolver_best_target [⟨"person", 0.9, some [319.5, 100, 320, 200]⟩] 640 480
    (by norm_num) (by norm_num) ⟨0, 8.2, "directly ahead", (320, 150), (0, 100), 0.9⟩ []
    (by simp)
    (by simp only [optionMapList, calcEval_left_half_pixel, List.map_cons, List.map_nil])

/-! ### C3: the obstacle analyzer -/

lemma threatOrderRank_le (t : String) : threatOrderRank t ≤ 3 := by
  unfold threatOrderRank
  split_ifs <;> norm_num

lemma obstacleEntry_some (target_objs : List ObjectDetection) (w h : ℚ)
    (o : ObjectDetection) (ob : Obstacle)
    (he : obstacleEntry target_objs w h o = some (some ob)) :
    o ∉ target_objs ∧ ob.name = o.name ∧ ob.confidence = o.confidence := by
  by_cases hmem : o ∈ target_objs
  · rw [obstacleEntry, if_pos hmem] at he
    exact absurd he (by simp)
  · refine ⟨hmem, ?_⟩
    rw [obstacleEntry, if_neg hmem] at he
    rcases hb : o.bbox with _ | bl
    · rw [hb] at he
      exact absurd he (by simp)
    · rcases bl with _ | ⟨a, _ | ⟨b, _ | ⟨c, _ | ⟨d, _ | ⟨e, rest⟩⟩⟩⟩⟩ <;> rw [hb] at he
      · exact absurd he (by simp)
      · exact absurd he (by simp)
      · exact absurd he (by simp)
      · exact absurd he (by simp)
      · dsimp only at he
        split_ifs at he <;>
          first
            | (rw [Option.some.injEq, Option.some.injEq] at he
               rw [← he]
               exact ⟨rfl, rfl⟩)
            | exact absurd he (by simp)
      · exact absurd he (by simp)

lemma obstaclesRaw_mem (target_objs : List ObjectDetection) (w h : ℚ)
    (objs : List ObjectDetection) (l : List Obstacle)
    (hres : obstaclesRaw target_objs w h objs = some l) :
    ∀ ob ∈ l, ∃ o ∈ objs, obstacleEntry target_objs w h o = some (some ob) := by
  induction objs generalizing l with
  | nil =>
    simp only [obstaclesRaw, Option.some.injEq] at hres
    subst hres
    intro ob hob
    exact absurd hob (List.not_mem_nil ob)
  | cons o os ih =>
    simp only [obstaclesRaw] at hres
    rcases he : obstacleEntry target_objs w h o with _ | ⟨_ | ob0⟩ <;> rw [he] at hres
    · exact absurd hres (by simp)
    · intro ob hob
      obtain ⟨o', ho', he'⟩ := ih l hres ob hob
      exact ⟨o', List.mem_cons_of_mem _ ho', he'⟩
    · rcases hr : obstaclesRaw target_objs w h os with _ | rest <;> rw [hr] at hres
      · exact absurd hres (by simp)
      · rw [Option.some.injEq] at hres
        subst hres
        intro ob hob
        rcases List.mem_cons.mp hob with hx | hx
        · exact ⟨o, List.mem_cons_self _ _, hx ▸ he⟩
        · obtain ⟨o', ho', he'⟩ := ih rest hr ob hx
          exact ⟨o', List.mem_cons_of_mem _ ho', he'⟩

/-- C3: `_analyze_obstacles` returns at most 3 records, every returned record
stems from a detection outside the excluded/target set, and the list is
sorted by distance rank ascending then threat rank ascending. -/
theorem analyze_obstacles_bounded (objects target_objs : List ObjectDetection)
    (w h : ℚ) (hw : 0 < w) (hh : 0 < h) (l : List Obstacle)
    (hres : _analyze_obstacles objects target_objs w h = some l) :
    l.length ≤ 3 ∧
    (∀ ob ∈ l, ∃ o, o ∈ objects ∧ o ∉ target_objs ∧ ob.name = o.name ∧
      ob.confidence = o.confidence) ∧
    List.Pairwise (fun a b =>
      distanceOrderRank a.distance < distanceOrderRank b.distance ∨
      (distanceOrderRank a.distance = distanceOrderRank b.distance ∧
        threatOrderRank a.threat ≤ threatOrderRank b.threat)) l := by
  rw [_analyze_obstacles] at hres
  rcases hraw : obstaclesRaw target_objs w h objects with _ | obs <;> rw [hraw] at hres
  · exact absurd hres (by simp)
  · rw [Option.some.injEq] at hres
    subst hres
    refine ⟨?_, ?_, ?_⟩
    · rw [List.length_take]
      exact min_le_left _ _
    · intro ob hob
      have hmem : ob ∈ obs :=
        (List.perm_insertionSort obstacleLE obs).mem_iff.mp (List.take_subset _ _ hob)
      obtain ⟨o, ho, he⟩ := obstaclesRaw_mem target_objs w h objects obs hraw ob hmem
      have hprops := obstacleEntry_some target_objs w h o ob he
      exact ⟨o, ho, hprops.1, hprops.2.1, hprops.2.2⟩
    · have hs : List.Pairwise obstacleLE (List.insertionSort obstacleLE obs) :=
        List.sorted_insertionSort obstacleLE obs
      have hst : List.Pairwise obstacleLE ((List.insertionSort obstacleLE obs).take 3) :=
        List.Pairwise.sublist (List.take_sublist 3 _) hs
      refine hst.imp ?_
      intro a b hab
      have ta := threatOrderRank_le a.threat
      have tb := threatOrderRank_le b.threat
      unfold obstacleLE obstacleSortKey at hab
      omega

/-- Witness for `analyze_obstacles_bounded` on the empty scene. -/
theorem analyze_obstacles_bounded_witness :
    ([] : List Obstacle).length ≤ 3 ∧
    (∀ ob ∈ ([] : List Obstacle), ∃ o, o ∈ ([] : List ObjectDetection) ∧
      o ∉ ([] : List ObjectDetection) ∧ ob.name = o.name ∧ ob.confidence = o.confidence) ∧
    List.Pairwise (fun a b =>
      distanceOrderRank a.distance < distanceOrderRank b.distance ∨
      (distanceOrderRank a.distance = distanceOrderRank b.distance ∧
        threatOrderRank a.threat ≤ threatOrderRank b.threat)) ([] : List Obstacle) :=
  analyze_obstacles_bounded [] [] 640 480 (by norm_num) (by norm_num) [] rfl

/-! ### C9: instructions always end in terminal punctuation -/

lemma normalizeEnd_punct (s : String) :
    endsPunct (if endsPunct (pyStrip s) then pyStrip s else pyStrip s ++ ".") = true := by
  by_cases hc : endsPunct (pyStrip s) = true
  · rw [if_pos hc]
    exact hc
  · rw [if_neg hc]
    exact endsPunct_append_dot _

lemma smoothing_ends_punct (hashFn : String → ℤ) (info : DirectionInfo)
    (obstacles : List Obstacle) (target_name : Option String) :
    endsPunct (_path_smoothing_instruction hashFn info obstacles target_name) = true := by
  simp only [_path_smoothing_instruction]
  exact normalizeEnd_punct _

lemma fullInstructionFor_ends_punct (angle distance : ℚ) :
    endsPunct (fullInstructionFor angle distance) = true := by
  unfold fullInstructionFor
  split_ifs
  · exact endsPunct_append_dot _
  · exact endsPunct_append_dot _

lemma direction_navigation_full (target_objs : List ObjectDetection) (w h : ℚ)
    (info : DirectionInfo) (nav : NavData)
    (hd : _direction_for_targets target_objs w h = some info)
    (hn : info.navigation = some nav) :
    endsPunct nav.full_instruction = true := by
  rcases target_objs with _ | ⟨o, os⟩
  · simp only [_direction_for_targets, Option.some.injEq] at hd
    rw [← hd] at hn
    exact absurd hn (by simp)
  · simp only [_direction_for_targets] at hd
    rcases hm : optionMapList (fun o => _calculate_precise_position o w h) (o :: os) with
      _ | posv
    · rw [hm] at hd
      exact absurd hd (by simp)
    · rw [hm] at hd
      dsimp only at hd
      rcases hm2 : optionMapList
          (fun p => match p with | .ok q => some q | .degenerate => none) posv with
        _ | positions
      · rw [hm2] at hd
        exact absurd hd (by simp)
      · rw [hm2] at hd
        dsimp only at hd
        rcases positions with _ | ⟨p, ps⟩
        · simp only [Option.some.injEq] at hd
          rw [← hd] at hn
          exact absurd hn (by simp)
        · simp only [Option.some.injEq] at hd
          rw [← hd] at hn
          simp only [Option.some.injEq] at hn
          rw [← hn]
          exact fullInstructionFor_ends_punct _ _

/-- C9: every instruction `_compute_guidance` produces — on the precise-target
path (full instruction, possibly with an appended obstacle caution) and on the
fallback path (`_path_smoothing_instruction` with its trailing-punctuation
normalization) — ends with '.', '!' or '?'. -/
theorem instruction_ends_punct (hashFn : String → ℤ) (objects : List ObjectDetection)
    (question : String) (w h : ℚ) (hw : 0 < w) (hh : 0 < h) (g : GuidanceResult)
    (hg : _compute_guidance hashFn objects question w h = some g) :
    endsPunct g.instruction = true := by
  simp only [_compute_guidance] at hg
  rcases hd : _direction_for_targets
      (((findTarget (_extract_targets question) objects).map Prod.snd).getD []) w h with
    _ | dinfo0
  · rw [hd] at hg
    exact absurd hg (by simp)
  · rw [hd] at hg
    dsimp only at hg
    rcases hobs : _analyze_obstacles objects
        (((findTarget (_extract_targets question) objects).map Prod.snd).getD []) w h with
      _ | obstacles
    · rw [hobs] at hg
      exact absurd hg (by simp)
    · rw [hobs] at hg
      dsimp only at hg
      rw [Option.some.injEq] at hg
      rw [← hg]
      dsimp only
      rw [apply_ite DirectionInfo.navigation]
      dsimp only
      rw [ite_self]
      cases hnav : dinfo0.navigation with
      | none =>
        dsimp only
        exact smoothing_ends_punct _ _ _ _
      | some nav =>
        dsimp only
        have hfull := direction_navigation_full _ w h dinfo0 nav hd hnav
        cases hco : obstacles.filter
            (fun ob => ob.distance = "very close" ∨ ob.distance = "close") with
        | nil =>
          dsimp only
          exact hfull
        | cons ob rest =>
          dsimp only
          exact endsPunct_append_dot _

lemma smoothing_empty_scene :
    _path_smoothing_instruction (fun _ => 0) ⟨"center", "clear", 0.5, 0, none⟩ []
      (some "path") = "Move center (clear)." := by
  simp only [_path_smoothing_instruction]
  rw [if_neg (by norm_num : ¬ ((0.5 : ℚ) < 0.4))]
  decide

lemma compute_guidance_empty_scene :
    _compute_guidance (fun _ => 0) [] "" 640 480 =
      some ⟨some "path", "center", "clear", 0.5, "Move center (clear).", [], 0, none⟩ := by
  simp only [_compute_guidance]
  rw [show _extract_targets "" = [] from by decide]
  simp only [findTarget, Option.map_none', Option.getD_none, _direction_for_targets]
  rw [show _free_path_direction [] 640 = ⟨"center", "clear", 0.5⟩ from rfl]
  simp only [Option.isNone_none, and_self, if_true, ite_true]
  rw [show _analyze_obstacles [] [] 640 480 = some [] from rfl]
  dsimp only
  rw [smoothing_empty_scene]

/-- Witness for `instruction_ends_punct` on the empty scene with an empty
query. -/
theorem instruction_ends_punct_witness :
    endsPunct (GuidanceResult.instruction
      ⟨some "path", "center", "clear", 0.5, "Move center (clear).", [], 0, none⟩) = true :=
  instruction_ends_punct (fun _ => 0) [] "" 640 480 (by norm_num) (by norm_num)
    ⟨some "path", "center", "clear", 0.5, "Move center (clear).", [], 0, none⟩
    compute_guidance_empty_scene

end EchoVision
